import Mathlib

/-!
Shallow embedding of the hassbeam-connect front-end widgets.

The repository contains four near-duplicate browser card implementations:
* `src/www/hassbeam-card.js` — class HassBeamConnectCard (light DOM, no
  registration IIFE, no lifecycle callbacks);
* `src/unnamed/part_000` — the same class body plus a guarded registration
  IIFE, a constructor, and connected/disconnected lifecycle callbacks;
* `src/unnamed/part_001` — the minimal IRCodeLoggerCard variant;
* `src/unnamed/part_002` — the richer HassbeamConnectCard variant (shadow
  DOM, recent-codes list, unconditional registry push), plus services
  metadata in `src/unnamed/part_003`.

Each event handler is translated as a pure function from the widget's
observable UI state to a new state, paired with the list of remote service
calls the handler issues synchronously.  Promise continuations (`then` /
`catch`) are separate functions, so "before the promise settles" is the
state returned by the click handler itself.
-/

/-- Model of JavaScript String.prototype.trim, used by the click handlers:
removes whitespace from both ends of the string.  Defined over the
character list so that it evaluates inside the kernel. -/
def jsTrim (s : String) : String :=
  ⟨((s.data.dropWhile Char.isWhitespace).reverse.dropWhile Char.isWhitespace).reverse⟩

/-- A remote service call issued through hass.callService: domain, service
name, and the `device` / `action` payload fields. -/
structure ServiceCall where
  domain : String
  service : String
  device : String
  action : String
deriving DecidableEq, Repr

/-- Payload of a `hassbeam_connect_saved` event: `event.data.device` and
`event.data.action`. -/
structure SavedEvent where
  device : String
  action : String
deriving DecidableEq, Repr

/-! ## UI state of HassBeamConnectCard (src/www/hassbeam-card.js, part_000)

The observable DOM state the handlers read and write: the two text inputs,
the status div's text and className, and the listen button's disabled flag
and label. -/

/-- Observable UI state of the HassBeamConnectCard markup rendered by the
card: `#device` and `#action` input values, `#status` text and className,
and the `#listen` button's disabled flag and textContent. -/
structure CardState where
  deviceValue : String
  actionValue : String
  statusText : String
  statusClass : String
  listenDisabled : Bool
  listenText : String
deriving DecidableEq, Repr

/-- The state of the markup right after rendering: empty inputs, empty
status with base class, enabled listen button with its default label. -/
def initialCardState : CardState :=
  { deviceValue := ""
    actionValue := ""
    statusText := ""
    statusClass := "status-message"
    listenDisabled := false
    listenText := "IR-Code speichern" }

/-- Translation of HassBeamConnectCard._showStatus: sets the status div's
textContent and its className to the template string. -/
def showStatus (s : CardState) (message ty : String) : CardState :=
  { s with statusText := message, statusClass := "status-message " ++ ty }

/-- Translation of HassBeamConnectCard._resetButton: re-enables the listen
button and restores its default label. -/
def resetButton (s : CardState) : CardState :=
  { s with listenDisabled := false, listenText := "IR-Code speichern" }

/-- Translation of the `listenButton.onclick` handler, up to (but not
including) settlement of the callService promise.  Trims both inputs; on a
missing field shows the validation message and issues no call; otherwise
disables the button, shows the waiting label, and issues exactly one
`start_listening` call carrying the trimmed pair. -/
def listenClick (s : CardState) : CardState × List ServiceCall :=
  let device := jsTrim s.deviceValue
  let action := jsTrim s.actionValue
  if device = "" ∨ action = "" then
    (showStatus s "Bitte geben Sie Gerät und Aktion ein" "error", [])
  else
    ({ s with listenDisabled := true, listenText := "Warte auf IR-Signal..." },
     [⟨"hassbeam_connect", "start_listening", device, action⟩])

/-- Translation of the `.then` continuation of the callService promise in
the listen handler: shows the waiting status message. -/
def listenResolve (s : CardState) (device action : String) : CardState :=
  showStatus s ("Warte auf IR-Event für " ++ device ++ "." ++ action ++ "...") "waiting"

/-- Translation of the `.catch` continuation of the callService promise in
the listen handler: shows the error message prefixed by "Fehler: " and
resets the listen button.  It issues no further service call (no retry). -/
def listenReject (s : CardState) (errMessage : String) : CardState × List ServiceCall :=
  (resetButton (showStatus s ("Fehler: " ++ errMessage) "error"), [])

/-- Translation of the `clearButton.onclick` handler: empties both inputs,
clears the status text, restores the base status className, and resets the
listen button.  It issues no service call. -/
def clearClick (s : CardState) : CardState × List ServiceCall :=
  (resetButton
    { s with deviceValue := "", actionValue := "",
             statusText := "", statusClass := "status-message" }, [])

/-- Translation of the subscribeEvents callback for
`hassbeam_connect_saved` events: shows the success status, clears the
action input (the device input is untouched), and resets the listen
button. -/
def onSavedCallback (s : CardState) (e : SavedEvent) : CardState :=
  let s1 := showStatus s ("✅ Gespeichert: " ++ e.device ++ " - " ++ e.action) "success"
  resetButton { s1 with actionValue := "" }

/-! ## Event-bus subscriptions and the card lifecycle

hass.connection.subscribeEvents registers a callback for one or more event
types and returns a handle; unsubscribeEvents removes the registration for
a handle.  Handles are modelled as natural-number ids issued by the
connection. -/

/-- One live registration on the event bus: its handle and the event types
it was subscribed for. -/
structure Subscription where
  id : Nat
  eventTypes : List String
deriving DecidableEq, Repr

/-- The event-bus side of hass.connection: the next fresh handle and the
list of live subscriptions. -/
structure Connection where
  nextId : Nat
  subs : List Subscription
deriving DecidableEq, Repr

/-- A connection with no live subscriptions. -/
def emptyConnection : Connection := ⟨0, []⟩

/-- Model of hass.connection.subscribeEvents: records a live registration
under a fresh handle and returns the handle. -/
def subscribeEvents (c : Connection) (tys : List String) : Connection × Nat :=
  (⟨c.nextId + 1, c.subs ++ [⟨c.nextId, tys⟩]⟩, c.nextId)

/-- Model of hass.connection.unsubscribeEvents: removes every live
registration carrying the given handle. -/
def unsubscribeEvents (c : Connection) (i : Nat) : Connection :=
  { c with subs := c.subs.filter (fun s => s.id ≠ i) }

/-- The lifecycle-relevant instance fields of HassBeamConnectCard:
`_initialized`, `_eventListener` (the stored subscription handle) and
whether `_hass` has been set. -/
structure LifeCard where
  initialized : Bool
  eventListener : Option Nat
  hasHass : Bool
deriving DecidableEq, Repr

/-- The instance state set up by the part_000 constructor
(`_initialized = false`, `_eventListener = null`); in
src/www/hassbeam-card.js the same fields are initially undefined, which
the guards treat identically. -/
def freshCard : LifeCard := ⟨false, none, false⟩

/-- Translation of the subscription part of
HassBeamConnectCard._setupEventListeners: if `_eventListener` is set,
unsubscribe it first; then subscribe for `hassbeam_connect_saved` and
store the new handle. -/
def setupEventListeners (c : Connection) (card : LifeCard) : Connection × LifeCard :=
  let c1 := match card.eventListener with
    | some i => unsubscribeEvents c i
    | none => c
  let p := subscribeEvents c1 ["hassbeam_connect_saved"]
  (p.1, { card with eventListener := some p.2 })

/-- Translation of the `set hass` accessor (identical in
src/www/hassbeam-card.js and part_000): stores hass; on the first call
only, renders and runs `_setupEventListeners`, then sets `_initialized`. -/
def setHass (c : Connection) (card : LifeCard) : Connection × LifeCard :=
  let card1 := { card with hasHass := true }
  if card1.initialized then (c, card1)
  else
    let p := setupEventListeners c card1
    (p.1, { p.2 with initialized := true })

/-- Translation of part_000's HassBeamConnectCard.disconnectedCallback:
unsubscribes the stored handle when both `_eventListener` and `_hass` are
set.  (`_eventListener` itself is not cleared.) -/
def disconnectedCallback (c : Connection) (card : LifeCard) : Connection × LifeCard :=
  match card.eventListener, card.hasHass with
  | some i, true => (unsubscribeEvents c i, card)
  | _, _ => (c, card)

/-- The class in src/www/hassbeam-card.js defines no disconnectedCallback,
so detaching that card from the document runs no teardown code at all:
connection and instance state are left unchanged. -/
def wwwDisconnect (c : Connection) (card : LifeCard) : Connection × LifeCard :=
  (c, card)

/-- Whether the card's stored subscription handle is still live on the bus
for the given event type, i.e. whether firing that event type reaches the
callback the card registered. -/
def cardReceives (c : Connection) (card : LifeCard) (ty : String) : Bool :=
  match card.eventListener with
  | some i => c.subs.any (fun s => s.id == i && s.eventTypes.contains ty)
  | none => false

/-- Delivery of a `hassbeam_connect_saved` bus event to a
HassBeamConnectCard instance: the UI callback runs exactly when the card's
registration is still live; otherwise the UI state is untouched. -/
def deliverSaved (c : Connection) (card : LifeCard) (ui : CardState) (e : SavedEvent) : CardState :=
  if cardReceives c card "hassbeam_connect_saved" then onSavedCallback ui e else ui

/-- Number of live registrations on the bus carrying the given handle. -/
def subCount (c : Connection) (i : Nat) : Nat :=
  (c.subs.filter (fun s => s.id == i)).length

/-- Number of live registrations owned by the card through its stored
`_eventListener` handle. -/
def ownedCount (c : Connection) (card : LifeCard) : Nat :=
  match card.eventListener with
  | some i => subCount c i
  | none => 0

/-- Well-formedness of the connection: every live handle was issued in the
past, i.e. is below `nextId`. -/
def idsFresh (c : Connection) : Prop :=
  ∀ s ∈ c.subs, s.id < c.nextId

instance (c : Connection) : Decidable (idsFresh c) := by
  unfold idsFresh; infer_instance

/-- Iterated attach of one card instance: starting from an empty bus and a
fresh instance, the host assigns hass n times. -/
def attachIter : Nat → Connection × LifeCard
  | 0 => (emptyConnection, freshCard)
  | n + 1 => let p := attachIter n; setHass p.1 p.2

/-! ## IRCodeLoggerCard (src/unnamed/part_001)

The minimal variant: its listen handler reads the raw input values (no
trimming), performs no validation, always issues the start_listening call,
and sets the status text. -/

/-- Observable UI state of the IRCodeLoggerCard markup: the two inputs and
the `#status` paragraph. -/
structure IRState where
  deviceValue : String
  actionValue : String
  statusText : String
deriving DecidableEq, Repr

/-- Translation of IRCodeLoggerCard's listen onclick handler: issues the
`ir_code_logger.start_listening` call with the raw (untrimmed, unvalidated)
input values and shows the waiting text. -/
def irListenClick (s : IRState) : IRState × List ServiceCall :=
  ({ s with statusText := "Warte auf IR-Event..." },
   [⟨"ir_code_logger", "start_listening", s.deviceValue, s.actionValue⟩])

/-- Translation of IRCodeLoggerCard's subscribeEvents callback for
`ir_code_logger_saved`: shows the saved text and clears the action input. -/
def irSavedCallback (s : IRState) (e : SavedEvent) : IRState :=
  { s with statusText := "Gespeichert: " ++ e.device ++ " - " ++ e.action,
           actionValue := "" }

/-! ## HassbeamConnectCard (src/unnamed/part_002)

The richer shadow-DOM variant with an `isListening` flag, a recent-codes
list, and an unconditional registry push. -/

/-- Observable UI state of the part_002 HassbeamConnectCard: inputs, the
status div (text, className, visibility), the start button, the inputs'
disabled flag, the `isListening` instance flag, and the innerHTML of the
recent-codes list. -/
structure HCState where
  deviceValue : String
  actionValue : String
  statusText : String
  statusClass : String
  statusVisible : Bool
  startDisabled : Bool
  startText : String
  inputsDisabled : Bool
  isListening : Bool
  recentCodesHtml : String
deriving DecidableEq, Repr

/-- Translation of HassbeamConnectCard.showStatus: sets text, className
`status <type>` (plus `pulse` for the listening type) and makes the status
visible.  The 3-second auto-hide timer for info/success types is a real
time effect and is outside this state model. -/
def hcShowStatus (s : HCState) (message ty : String) : HCState :=
  { s with statusText := message,
           statusClass := "status " ++ ty ++ (if ty = "listening" then " pulse" else ""),
           statusVisible := true }

/-- Translation of HassbeamConnectCard.updateUI: drives the start button
and the inputs' disabled state from the `isListening` flag. -/
def hcUpdateUI (s : HCState) : HCState :=
  if s.isListening then
    { s with startText := "⏳ Warte auf IR-Signal...", startDisabled := true,
             inputsDisabled := true }
  else
    { s with startText := "🎯 IR-Code aufnehmen", startDisabled := false,
             inputsDisabled := false }

/-- Translation of HassbeamConnectCard.startListening, up to (but not
including) settlement of the callService promise: trims both inputs; on a
missing field shows the validation message and issues no call; otherwise
sets `isListening`, updates the UI, and issues exactly one
`start_listening` call carrying the trimmed pair. -/
def hcStartListening (s : HCState) : HCState × List ServiceCall :=
  let device := jsTrim s.deviceValue
  let action := jsTrim s.actionValue
  if device = "" ∨ action = "" then
    (hcShowStatus s "Bitte geben Sie Gerät und Aktion ein" "error", [])
  else
    (hcUpdateUI { s with isListening := true },
     [⟨"hassbeam_connect", "start_listening", device, action⟩])

/-- Translation of the `.then` continuation in startListening. -/
def hcStartListeningResolve (s : HCState) (device action : String) : HCState :=
  hcShowStatus s ("🎯 Warte auf IR-Signal für \"" ++ device ++ " - " ++ action ++ "\"...") "listening"

/-- Translation of the `.catch` continuation in startListening: clears the
`isListening` flag, updates the UI, shows the error message prefixed by
"Fehler: ".  It issues no further service call (no retry). -/
def hcStartListeningReject (s : HCState) (errMessage : String) : HCState × List ServiceCall :=
  (hcShowStatus (hcUpdateUI { s with isListening := false })
    ("Fehler: " ++ errMessage) "error", [])

/-- Translation of HassbeamConnectCard.onCodeSaved: clears `isListening`,
updates the UI, shows the success status, then clears BOTH the device and
the action input; finally it schedules a loadRecentCodes refresh
(setTimeout), which is not part of the synchronous state change. -/
def hcOnCodeSaved (s : HCState) (d : SavedEvent) : HCState :=
  let s1 := hcUpdateUI { s with isListening := false }
  let s2 := hcShowStatus s1
    ("✅ IR-Code für \"" ++ d.device ++ " - " ++ d.action ++ "\" erfolgreich gespeichert!")
    "success"
  { s2 with deviceValue := "", actionValue := "" }

/-- Translation of the subscription part of
HassbeamConnectCard.setupEventListeners (run on every render): when hass is
present, subscribes for both event types; the returned handle is discarded
and no existing registration is unsubscribed first. -/
def hcSetupSubscription (c : Connection) (hasHass : Bool) : Connection :=
  if hasHass then
    (subscribeEvents c ["hassbeam_connect_saved", "hassbeam_connect_codes_retrieved"]).1
  else c

/-- A get_recent_codes service call as issued by the part_002 card: the
only payload field the card supplies is `limit`. -/
structure RecentCodesCall where
  domain : String
  service : String
  limit : Nat
deriving DecidableEq, Repr

/-- Translation of HassbeamConnectCard.loadRecentCodes, synchronous part:
when hass is present, issues one `get_recent_codes` call with limit 5;
otherwise returns without any call. -/
def hcLoadRecentCodes (hasHass : Bool) : List RecentCodesCall :=
  if hasHass then [⟨"hassbeam_connect", "get_recent_codes", 5⟩] else []

/-- The innerHTML that HassbeamConnectCard.showMockCodes writes into the
recent-codes list. -/
def mockCodesHtml : String :=
  "\n      <div class=\"code-item\">\n        <div class=\"code-info\">\n          <div class=\"code-device\">Service nicht verfügbar</div>\n          <div class=\"code-action\">Integration überprüfen</div>\n        </div>\n      </div>\n    "

/-- Translation of HassbeamConnectCard.showMockCodes: replaces the
recent-codes list with the placeholder markup. -/
def showMockCodes (s : HCState) : HCState :=
  { s with recentCodesHtml := mockCodesHtml }

/-- Translation of the `.catch` continuation in loadRecentCodes: logs a
console warning and degrades to the placeholder via showMockCodes; the
handler returns normally, so the failure never propagates further.  It
issues no further service call. -/
def hcLoadRecentCodesReject (s : HCState) : HCState × List RecentCodesCall :=
  (showMockCodes s, [])

/-- The innerHTML the part_002 render places in the recent-codes list
before any codes are loaded. -/
def noCodesYetHtml : String :=
  "\n            <div class=\"code-item\">\n              <div class=\"code-info\">\n                <div class=\"code-device\">Noch keine Codes aufgenommen</div>\n                <div class=\"code-action\">Verwenden Sie die Aufnahmefunktion oben</div>\n              </div>\n            </div>\n          "

/-- The part_002 shadow-DOM state right after render: empty inputs, the
hidden status div with its static markup, enabled start button, and the
"no codes yet" placeholder in the recent-codes list. -/
def initialHCState : HCState :=
  { deviceValue := ""
    actionValue := ""
    statusText := "Bereit zum Aufnehmen"
    statusClass := "status info"
    statusVisible := false
    startDisabled := false
    startText := "🎯 IR-Code aufnehmen"
    inputsDisabled := false
    isListening := false
    recentCodesHtml := noCodesYetHtml }

/-! ## Card registration with window.customCards

part_000 wraps registration in an IIFE that first checks whether an entry
with the same type string already exists; part_002 pushes its entry
unconditionally.  `window.customCards` may be undefined before the first
script runs, modelled with Option. -/

/-- An entry of the host-wide window.customCards registry. -/
structure CardRegistration where
  cardType : String
  name : String
  description : String
  preview : Bool
  documentationURL : String
deriving DecidableEq, Repr

/-- The entry pushed by part_000's registration IIFE. -/
def part000Entry : CardRegistration :=
  { cardType := "hassbeam-connect-card"
    name := "Hassbeam Connect Card"
    description := "Capture IR codes from remote controls using HassBeam device"
    preview := true
    documentationURL := "https://github.com/BasilBerg/hassbeam-connect" }

/-- The entry pushed by part_002's registration code. -/
def part002Entry : CardRegistration :=
  { cardType := "hassbeam-connect-card"
    name := "Hassbeam Connect Karte"
    description := "Karte zum Aufnehmen von IR-Codes mit Hassbeam Connect"
    preview := true
    documentationURL := "https://github.com/BasilBerg/hassbeam-connect" }

/-- Translation of part_000's registration IIFE: if window.customCards
exists and already holds an entry whose type is "hassbeam-connect-card",
return without changes; otherwise default the registry to an empty array
and push the entry. -/
def part000Register (w : Option (List CardRegistration)) : Option (List CardRegistration) :=
  match w with
  | some registry =>
      if registry.any (fun card => card.cardType == "hassbeam-connect-card") then
        some registry
      else
        some (registry ++ [part000Entry])
  | none => some [part000Entry]

/-- Translation of part_002's registration code: default the registry to
an empty array and push the entry unconditionally. -/
def part002Register (w : Option (List CardRegistration)) : Option (List CardRegistration) :=
  some ((w.getD []) ++ [part002Entry])

/-- Number of registry entries carrying the given type string. -/
def typeCount (w : Option (List CardRegistration)) (ty : String) : Nat :=
  ((w.getD []).filter (fun card => card.cardType == ty)).length

/-! ## The get_recent_codes service schema (src/unnamed/part_003)

The services metadata declares the optional `limit` field with a number
selector bounded by 1 and 100 and a default of 10. -/

/-- A bounded number selector from the services metadata. -/
structure NumberSelector where
  min : Nat
  max : Nat
deriving DecidableEq, Repr

/-- The declaration of the `limit` field of the get_recent_codes service:
optional, default 10, number selector with min 1 and max 100. -/
structure LimitField where
  required : Bool
  default : Nat
  selector : NumberSelector
deriving DecidableEq, Repr

/-- The `limit` field as declared in part_003. -/
def getRecentCodesLimit : LimitField :=
  { required := false
    default := 10
    selector := { min := 1, max := 100 } }

/-! ## Helper lemmas -/

/-- No registration whose handle is below n carries the handle n. -/
theorem filter_id_eq_nil (l : List Subscription) (n : Nat)
    (h : ∀ s ∈ l, s.id < n) : l.filter (fun s => s.id == n) = [] := by
  induction l with
  | nil => rfl
  | cons a t ih =>
      have ha : a.id ≠ n := Nat.ne_of_lt (h a (List.mem_cons_self a t))
      have ht : ∀ s ∈ t, s.id < n := fun s hs => h s (List.mem_cons_of_mem a hs)
      have hb : (a.id == n) = false := beq_eq_false_iff_ne.mpr ha
      simp [List.filter_cons, hb, ih ht]

/-- After removing a handle from the bus, no registration carries it. -/
theorem subCount_unsubscribe (c : Connection) (i : Nat) :
    subCount (unsubscribeEvents c i) i = 0 := by
  unfold subCount unsubscribeEvents
  simp only [List.filter_filter]
  rw [List.filter_eq_nil_iff.mpr ?_]
  · rfl
  · intro s hs
    by_cases h : s.id = i <;> simp [h]

/-- After removing a handle from the bus, no live registration matches it
in an `any` scan. -/
theorem any_unsubscribed_false (c : Connection) (i : Nat) (p : Subscription → Bool) :
    ((unsubscribeEvents c i).subs.any (fun s => s.id == i && p s)) = false := by
  unfold unsubscribeEvents
  simp only [List.any_eq_false]
  intro s hs
  have hid : s.id ≠ i := by
    have := List.of_mem_filter hs
    simpa using this
  simp [hid]

/-- The unsubscribe step of setupEventListeners keeps the connection's
next fresh handle. -/
theorem setup_pre_nextId (c : Connection) (card : LifeCard) :
    (match card.eventListener with
      | some i => unsubscribeEvents c i
      | none => c).nextId = c.nextId := by
  cases card.eventListener <;> rfl

/-- The unsubscribe step of setupEventListeners only keeps registrations
that were already live. -/
theorem setup_pre_mem (c : Connection) (card : LifeCard) (s : Subscription)
    (hs : s ∈ (match card.eventListener with
      | some i => unsubscribeEvents c i
      | none => c).subs) : s ∈ c.subs := by
  cases hE : card.eventListener with
  | none => rw [hE] at hs; exact hs
  | some i => rw [hE] at hs; exact List.mem_of_mem_filter hs

/-- Running the subscription part of _setupEventListeners leaves the card
owning exactly one live registration: a previously stored handle is
unsubscribed before the new registration is created. -/
theorem ownedCount_setup (c : Connection) (card : LifeCard) (hf : idsFresh c) :
    ownedCount (setupEventListeners c card).1 (setupEventListeners c card).2 = 1 := by
  unfold setupEventListeners subscribeEvents
  unfold ownedCount subCount
  simp only [List.filter_append]
  have hn := setup_pre_nextId c card
  rw [List.length_append, filter_id_eq_nil _ _ ?_]
  · simp [hn]
  · intro s hs
    have := hf s (setup_pre_mem c card s hs)
    omega

/-- Running the subscription part of _setupEventListeners preserves
freshness of the bus handles. -/
theorem idsFresh_setup (c : Connection) (card : LifeCard) (hf : idsFresh c) :
    idsFresh (setupEventListeners c card).1 := by
  unfold setupEventListeners subscribeEvents
  intro s hs
  simp only at hs
  rcases List.mem_append.mp hs with h | h
  · have h1 := hf s (setup_pre_mem c card s h)
    have hn := setup_pre_nextId c card
    simp only [hn]
    omega
  · simp only [List.mem_singleton] at h
    subst h
    have hn := setup_pre_nextId c card
    simp [hn]

/-- Assigning hass a second (or later) time is a no-op on the connection
and on the instance: the `_initialized` guard skips the setup. -/
theorem attachIter_succ_eq (n : Nat) : attachIter (n + 1) = attachIter 1 := by
  induction n with
  | zero => rfl
  | succ k ih =>
      show setHass (attachIter (k + 1)).1 (attachIter (k + 1)).2 = attachIter 1
      rw [ih]
      decide

/-! ## Claim theorems -/

/-- C1: for every (device, action) pair whose trimmed values are both
non-empty, the submit handler issues exactly one start_listening remote
call whose payload is exactly the trimmed pair, and before the call's
promise settles the widget is already in the Listening state (submit
control disabled, waiting label shown).  Proved for both cited
implementations: the HassBeamConnectCard listen handler and the part_002
startListening method. -/
theorem submit_issues_one_call_and_listens (s : CardState) (t : HCState)
    (hd : jsTrim s.deviceValue ≠ "") (ha : jsTrim s.actionValue ≠ "")
    (hd2 : jsTrim t.deviceValue ≠ "") (ha2 : jsTrim t.actionValue ≠ "") :
    (listenClick s).2
        = [⟨"hassbeam_connect", "start_listening", jsTrim s.deviceValue, jsTrim s.actionValue⟩]
      ∧ (listenClick s).1.listenDisabled = true
      ∧ (listenClick s).1.listenText = "Warte auf IR-Signal..."
      ∧ (hcStartListening t).2
        = [⟨"hassbeam_connect", "start_listening", jsTrim t.deviceValue, jsTrim t.actionValue⟩]
      ∧ (hcStartListening t).1.isListening = true
      ∧ (hcStartListening t).1.startDisabled = true := by
  unfold listenClick hcStartListening
  rw [if_neg (not_or.mpr ⟨hd, ha⟩), if_neg (not_or.mpr ⟨hd2, ha2⟩)]
  exact ⟨rfl, rfl, rfl, rfl, by simp [hcUpdateUI], by simp [hcUpdateUI]⟩

/-- C1 witness: the theorem instantiated at concrete inputs with padded
whitespace, checking the hypotheses and the issued payload by evaluation. -/
theorem submit_issues_one_call_and_listens_spot :
    jsTrim (" tv " : String) ≠ "" ∧ jsTrim ("power" : String) ≠ ""
    ∧ ((listenClick { initialCardState with deviceValue := " tv ", actionValue := "power" }).2
        = [⟨"hassbeam_connect", "start_listening",
            jsTrim (" tv " : String), jsTrim ("power" : String)⟩]
      ∧ (listenClick { initialCardState with deviceValue := " tv ", actionValue := "power" }).1.listenDisabled = true
      ∧ (listenClick { initialCardState with deviceValue := " tv ", actionValue := "power" }).1.listenText = "Warte auf IR-Signal..."
      ∧ (hcStartListening { initialHCState with deviceValue := "AC", actionValue := " volume_up" }).2
        = [⟨"hassbeam_connect", "start_listening",
            jsTrim ("AC" : String), jsTrim (" volume_up" : String)⟩]
      ∧ (hcStartListening { initialHCState with deviceValue := "AC", actionValue := " volume_up" }).1.isListening = true
      ∧ (hcStartListening { initialHCState with deviceValue := "AC", actionValue := " volume_up" }).1.startDisabled = true)
    ∧ jsTrim (" tv " : String) = "tv" :=
  ⟨by decide, by decide,
    submit_issues_one_call_and_listens
      { initialCardState with deviceValue := " tv ", actionValue := "power" }
      { initialHCState with deviceValue := "AC", actionValue := " volume_up" }
      (by decide) (by decide) (by decide) (by decide),
    by decide⟩

/-- C2 counterexample: the claim fails on the cited IRCodeLoggerCard
variant (part_001).  With an empty device field its listen handler still
issues one start_listening remote call (with the raw, unvalidated values)
and shows the waiting text instead of a validation message. -/
theorem ir_logger_submits_without_validation :
    (irListenClick ⟨"", "power", ""⟩).2
        = [⟨"ir_code_logger", "start_listening", "", "power"⟩]
    ∧ (irListenClick ⟨"", "power", ""⟩).2 ≠ []
    ∧ (irListenClick ⟨"", "power", ""⟩).1.statusText = "Warte auf IR-Event..." := by
  decide

/-- C2 (amended): for every device or action value that is empty or
whitespace-only after trimming, the submit handlers of HassBeamConnectCard
and of the part_002 variant issue zero remote calls, display the inline
validation message, and leave the Idle/Listening indicators (button
disabled flag and label, isListening flag) unchanged — so a widget in the
Idle state stays Idle.  The minimal IRCodeLoggerCard variant (part_001)
performs no validation and is excluded. -/
theorem submit_validation_blocks_call (s : CardState) (t : HCState)
    (h : jsTrim s.deviceValue = "" ∨ jsTrim s.actionValue = "")
    (h2 : jsTrim t.deviceValue = "" ∨ jsTrim t.actionValue = "") :
    (listenClick s).2 = []
    ∧ (listenClick s).1.statusText = "Bitte geben Sie Gerät und Aktion ein"
    ∧ (listenClick s).1.statusClass = "status-message error"
    ∧ (listenClick s).1.listenDisabled = s.listenDisabled
    ∧ (listenClick s).1.listenText = s.listenText
    ∧ (hcStartListening t).2 = []
    ∧ (hcStartListening t).1.statusText = "Bitte geben Sie Gerät und Aktion ein"
    ∧ (hcStartListening t).1.isListening = t.isListening
    ∧ (hcStartListening t).1.startDisabled = t.startDisabled := by
  unfold listenClick hcStartListening
  rw [if_pos h, if_pos h2]
  exact ⟨rfl, rfl, rfl, rfl, rfl, rfl, rfl, rfl, rfl⟩

/-- C2 witness: the theorem instantiated at a whitespace-only device value
on an Idle widget, with the hypotheses checked by evaluation. -/
theorem submit_validation_blocks_call_spot :
    (jsTrim ("   " : String) = "" ∨ jsTrim ("power" : String) = "")
    ∧ ((listenClick { initialCardState with deviceValue := "   ", actionValue := "power" }).2 = []
      ∧ (listenClick { initialCardState with deviceValue := "   ", actionValue := "power" }).1.statusText
          = "Bitte geben Sie Gerät und Aktion ein"
      ∧ (listenClick { initialCardState with deviceValue := "   ", actionValue := "power" }).1.statusClass
          = "status-message error"
      ∧ (listenClick { initialCardState with deviceValue := "   ", actionValue := "power" }).1.listenDisabled
          = ({ initialCardState with deviceValue := "   ", actionValue := "power" } : CardState).listenDisabled
      ∧ (listenClick { initialCardState with deviceValue := "   ", actionValue := "power" }).1.listenText
          = ({ initialCardState with deviceValue := "   ", actionValue := "power" } : CardState).listenText
      ∧ (hcStartListening { initialHCState with actionValue := "  " }).2 = []
      ∧ (hcStartListening { initialHCState with actionValue := "  " }).1.statusText
          = "Bitte geben Sie Gerät und Aktion ein"
      ∧ (hcStartListening { initialHCState with actionValue := "  " }).1.isListening
          = ({ initialHCState with actionValue := "  " } : HCState).isListening
      ∧ (hcStartListening { initialHCState with actionValue := "  " }).1.startDisabled
          = ({ initialHCState with actionValue := "  " } : HCState).startDisabled) :=
  ⟨by decide,
    submit_validation_blocks_call
      { initialCardState with deviceValue := "   ", actionValue := "power" }
      { initialHCState with actionValue := "  " }
      (by decide) (by decide)⟩

/-- C3 counterexample: the claim fails on the cited part_002 handler.
After submitting ("tv", "power"), onCodeSaved with event data
(device "tv", action "power") clears the device field too: it ends empty
instead of still containing "tv". -/
theorem part002_saved_clears_device :
    (hcOnCodeSaved
        (hcStartListening
          { initialHCState with deviceValue := "tv", actionValue := "power" }).1
        ⟨"tv", "power"⟩).deviceValue = ""
    ∧ (hcOnCodeSaved
        (hcStartListening
          { initialHCState with deviceValue := "tv", actionValue := "power" }).1
        ⟨"tv", "power"⟩).deviceValue ≠ "tv" := by
  decide

/-- C3 (amended): for every saved-completion event, the
HassBeamConnectCard saved-event callback (src/www/hassbeam-card.js,
part_000) sets the Success status, clears the action field, leaves the
device field unchanged, and re-enables the submit control — in particular
after submit("tv","power") the device field still contains "tv"; the
part_002 variant instead clears both input fields. -/
theorem saved_clears_action_keeps_device (s : CardState) (e : SavedEvent) :
    (onSavedCallback s e).deviceValue = s.deviceValue
    ∧ (onSavedCallback s e).actionValue = ""
    ∧ (onSavedCallback s e).listenDisabled = false
    ∧ (onSavedCallback s e).listenText = "IR-Code speichern"
    ∧ (onSavedCallback s e).statusClass = "status-message success"
    ∧ (onSavedCallback s e).statusText = "✅ Gespeichert: " ++ e.device ++ " - " ++ e.action
    ∧ (onSavedCallback
        (listenClick { initialCardState with deviceValue := "tv", actionValue := "power" }).1
        ⟨"tv", "power"⟩).deviceValue = "tv"
    ∧ (onSavedCallback
        (listenClick { initialCardState with deviceValue := "tv", actionValue := "power" }).1
        ⟨"tv", "power"⟩).actionValue = "" :=
  ⟨rfl, rfl, rfl, rfl, rfl, rfl, by decide, by decide⟩

/-- C4 counterexample: the claim fails on the cited part_002
setupEventListeners.  It subscribes on every call without unsubscribing
first (the handle is discarded), so attaching/rendering twice without a
detach leaves two live event-bus subscriptions, both for the saved event
type. -/
theorem part002_attach_twice_duplicates_subscription :
    (hcSetupSubscription (hcSetupSubscription emptyConnection true) true).subs.length = 2
    ∧ ¬ (hcSetupSubscription (hcSetupSubscription emptyConnection true) true).subs.length ≤ 1
    ∧ ((hcSetupSubscription (hcSetupSubscription emptyConnection true) true).subs.filter
        (fun s => s.eventTypes.contains "hassbeam_connect_saved")).length = 2 := by
  decide

/-- C4 (amended): for the HassBeamConnectCard implementation
(src/www/hassbeam-card.js, part_000) re-entrant attach keeps at most one
live subscription: assigning hass any number of times leaves at most one
registration on the bus, and even running _setupEventListeners again
directly unsubscribes the stored handle before subscribing, so the card
always owns exactly one registration afterwards.  The part_002 variant
subscribes on every render without unsubscribing and is excluded. -/
theorem reattach_keeps_single_subscription (n : Nat) (c : Connection) (card : LifeCard)
    (hf : idsFresh c) :
    (attachIter n).1.subs.length ≤ 1
    ∧ ownedCount (setupEventListeners c card).1 (setupEventListeners c card).2 = 1
    ∧ idsFresh (setupEventListeners c card).1 := by
  refine ⟨?_, ownedCount_setup c card hf, idsFresh_setup c card hf⟩
  cases n with
  | zero => decide
  | succ k => rw [attachIter_succ_eq k]; decide

/-- C4 witness: the theorem instantiated at three attaches and at a
re-entrant setup on a bus already holding the card's registration. -/
theorem reattach_keeps_single_subscription_spot :
    idsFresh ⟨1, [⟨0, ["hassbeam_connect_saved"]⟩]⟩
    ∧ ((attachIter 3).1.subs.length ≤ 1
      ∧ ownedCount
          (setupEventListeners ⟨1, [⟨0, ["hassbeam_connect_saved"]⟩]⟩ ⟨true, some 0, true⟩).1
          (setupEventListeners ⟨1, [⟨0, ["hassbeam_connect_saved"]⟩]⟩ ⟨true, some 0, true⟩).2 = 1
      ∧ idsFresh (setupEventListeners ⟨1, [⟨0, ["hassbeam_connect_saved"]⟩]⟩ ⟨true, some 0, true⟩).1) :=
  ⟨by decide,
    reattach_keeps_single_subscription 3 ⟨1, [⟨0, ["hassbeam_connect_saved"]⟩]⟩
      ⟨true, some 0, true⟩ (by decide)⟩

/-- C5 counterexample: the claim fails on the cited
src/www/hassbeam-card.js class, which defines no disconnectedCallback.
After attaching (assigning hass) and then detaching, its registration is
still live on the bus, and a subsequent saved event still mutates the
detached instance's UI state. -/
theorem www_card_receives_after_detach :
    (wwwDisconnect (setHass emptyConnection freshCard).1 (setHass emptyConnection freshCard).2).1.subs.length = 1
    ∧ deliverSaved
        (wwwDisconnect (setHass emptyConnection freshCard).1 (setHass emptyConnection freshCard).2).1
        (wwwDisconnect (setHass emptyConnection freshCard).1 (setHass emptyConnection freshCard).2).2
        initialCardState ⟨"tv", "power"⟩ ≠ initialCardState := by
  decide

/-- C5 (amended): for the part_000 variant, whose disconnectedCallback
unsubscribes the stored handle, an attached-then-detached instance owns
zero live registrations, and a subsequent saved event of the subscribed
type produces no state change on it; the src/www/hassbeam-card.js variant
defines no disconnectedCallback, so its registration outlives the
detach. -/
theorem detach_releases_subscription (c : Connection) (card : LifeCard)
    (hh : card.hasHass = true) :
    ownedCount (disconnectedCallback c card).1 (disconnectedCallback c card).2 = 0
    ∧ ∀ (ui : CardState) (e : SavedEvent),
        deliverSaved (disconnectedCallback c card).1 (disconnectedCallback c card).2 ui e = ui := by
  cases hE : card.eventListener with
  | none =>
      unfold disconnectedCallback
      rw [hE, hh]
      constructor
      · unfold ownedCount
        rw [hE]
      · intro ui e
        unfold deliverSaved cardReceives
        rw [hE]
        simp
  | some i =>
      unfold disconnectedCallback
      rw [hE, hh]
      constructor
      · unfold ownedCount
        rw [hE]
        exact subCount_unsubscribe c i
      · intro ui e
        unfold deliverSaved cardReceives
        rw [hE]
        show (if ((unsubscribeEvents c i).subs.any
            (fun s => s.id == i && s.eventTypes.contains "hassbeam_connect_saved")) = true
          then onSavedCallback ui e else ui) = ui
        rw [any_unsubscribed_false c i _]
        simp

/-- C5 witness: the theorem instantiated at an attached part_000 card
whose registration is live, with a concrete UI state and saved event. -/
theorem detach_releases_subscription_spot :
    (⟨true, some 0, true⟩ : LifeCard).hasHass = true
    ∧ ownedCount
        (disconnectedCallback ⟨1, [⟨0, ["hassbeam_connect_saved"]⟩]⟩ ⟨true, some 0, true⟩).1
        (disconnectedCallback ⟨1, [⟨0, ["hassbeam_connect_saved"]⟩]⟩ ⟨true, some 0, true⟩).2 = 0
    ∧ deliverSaved
        (disconnectedCallback ⟨1, [⟨0, ["hassbeam_connect_saved"]⟩]⟩ ⟨true, some 0, true⟩).1
        (disconnectedCallback ⟨1, [⟨0, ["hassbeam_connect_saved"]⟩]⟩ ⟨true, some 0, true⟩).2
        initialCardState ⟨"tv", "power"⟩ = initialCardState :=
  ⟨rfl,
    (detach_releases_subscription ⟨1, [⟨0, ["hassbeam_connect_saved"]⟩]⟩ ⟨true, some 0, true⟩ rfl).1,
    (detach_releases_subscription ⟨1, [⟨0, ["hassbeam_connect_saved"]⟩]⟩ ⟨true, some 0, true⟩ rfl).2
      initialCardState ⟨"tv", "power"⟩⟩

/-- Whatever the prior registry, part_000's guarded IIFE leaves some
registry that already holds an entry with the card's type string. -/
theorem part000Register_registered (w : Option (List CardRegistration)) :
    ∃ l, part000Register w = some l
      ∧ l.any (fun card => card.cardType == "hassbeam-connect-card") = true := by
  cases w with
  | none => exact ⟨[part000Entry], rfl, by decide⟩
  | some registry =>
      by_cases h : registry.any (fun card => card.cardType == "hassbeam-connect-card") = true
      · exact ⟨registry, by simp [part000Register, h], h⟩
      · refine ⟨registry ++ [part000Entry], by simp [part000Register, h], ?_⟩
        rw [List.any_append]
        simp [part000Entry]

/-- C6 counterexample: the claim fails on the cited part_002 registration
code, which pushes its entry unconditionally: evaluating it twice starting
from an undefined registry produces two entries with the type string
"hassbeam-connect-card". -/
theorem part002_double_registration :
    typeCount (part002Register (part002Register none)) "hassbeam-connect-card" = 2
    ∧ ¬ typeCount (part002Register (part002Register none)) "hassbeam-connect-card" ≤ 1 := by
  decide

/-- C6 (amended): the part_000 registration IIFE is idempotent on the
host-wide registry — evaluating it a second time is a no-op because it
finds the existing entry for the type string — and from an undefined
registry it produces exactly one entry of that type; the part_002 variant
pushes unconditionally and duplicates the entry on every evaluation. -/
theorem part000_registration_idempotent (w : Option (List CardRegistration)) :
    part000Register (part000Register w) = part000Register w
    ∧ typeCount (part000Register none) "hassbeam-connect-card" = 1
    ∧ typeCount (part000Register (part000Register none)) "hassbeam-connect-card" = 1 := by
  obtain ⟨l, hl, ha⟩ := part000Register_registered w
  refine ⟨?_, by decide, by decide⟩
  rw [hl]
  simp [part000Register, ha]

/-- C7: from every prior widget state, the clear handler of
HassBeamConnectCard results in empty device, action and status fields,
the base status className, and the Idle submit control (enabled, default
label), and it issues no remote call. -/
theorem clear_resets_fields (s : CardState) :
    (clearClick s).1.deviceValue = ""
    ∧ (clearClick s).1.actionValue = ""
    ∧ (clearClick s).1.statusText = ""
    ∧ (clearClick s).1.statusClass = "status-message"
    ∧ (clearClick s).1.listenDisabled = false
    ∧ (clearClick s).1.listenText = "IR-Code speichern"
    ∧ (clearClick s).2 = [] :=
  ⟨rfl, rfl, rfl, rfl, rfl, rfl, rfl⟩

/-- C8: whenever the start_listening promise rejects, both cited
implementations leave the Listening state (submit control re-enabled with
its default label; part_002 also clears isListening), place the
backend-provided message — unchanged, after the fixed "Fehler: " prefix —
in the status area with the error styling, and issue no further remote
call (no retry). -/
theorem reject_reverts_and_shows_error (s : CardState) (t : HCState) (msg : String) :
    (listenReject s msg).1.statusText = "Fehler: " ++ msg
    ∧ (listenReject s msg).1.statusClass = "status-message error"
    ∧ (listenReject s msg).1.listenDisabled = false
    ∧ (listenReject s msg).1.listenText = "IR-Code speichern"
    ∧ (listenReject s msg).2 = []
    ∧ (hcStartListeningReject t msg).1.statusText = "Fehler: " ++ msg
    ∧ (hcStartListeningReject t msg).1.statusClass = "status error"
    ∧ (hcStartListeningReject t msg).1.isListening = false
    ∧ (hcStartListeningReject t msg).1.startDisabled = false
    ∧ (hcStartListeningReject t msg).1.startText = "🎯 IR-Code aufnehmen"
    ∧ (hcStartListeningReject t msg).2 = [] :=
  ⟨rfl, rfl, rfl, rfl, rfl, rfl, rfl, rfl, rfl, rfl, rfl⟩

/-- C9: the part_002 variant's only get_recent_codes call supplies
limit 5, which lies within the declared 1..100 selector bounds whose
default is 10; and on failure the catch handler replaces the
recent-history list with the "Service nicht verfügbar" placeholder and
returns normally without issuing anything further, so the failure never
propagates as a hard error. -/
theorem recent_codes_limit_and_degradation (s : HCState) :
    hcLoadRecentCodes true = [⟨"hassbeam_connect", "get_recent_codes", 5⟩]
    ∧ getRecentCodesLimit.selector.min ≤ 5
    ∧ 5 ≤ getRecentCodesLimit.selector.max
    ∧ getRecentCodesLimit.default = 10
    ∧ getRecentCodesLimit.required = false
    ∧ (hcLoadRecentCodesReject s).1.recentCodesHtml = mockCodesHtml
    ∧ (hcLoadRecentCodesReject s).2 = []
    ∧ ∃ pre post, mockCodesHtml = pre ++ "Service nicht verfügbar" ++ post :=
  ⟨rfl, by decide, by decide, rfl, rfl, rfl, rfl,
    ⟨"\n      <div class=\"code-item\">\n        <div class=\"code-info\">\n          <div class=\"code-device\">",
     "</div>\n          <div class=\"code-action\">Integration überprüfen</div>\n        </div>\n      </div>\n    ",
     by rfl⟩⟩

/-- C10: invoking the clear handler while the widget is Listening (submit
control disabled) re-enables the submit control and restores its default
label, and issues no remote call. -/
theorem clear_while_listening_reenables (s : CardState)
    (_listening : s.listenDisabled = true) :
    (clearClick s).1.listenDisabled = false
    ∧ (clearClick s).1.listenText = "IR-Code speichern"
    ∧ (clearClick s).2 = [] :=
  ⟨rfl, rfl, rfl⟩

/-- C10 witness: the theorem instantiated at the state produced by a valid
submit, which is in the Listening state. -/
theorem clear_while_listening_reenables_spot :
    ((listenClick { initialCardState with deviceValue := "tv", actionValue := "power" }).1.listenDisabled = true)
    ∧ ((clearClick (listenClick { initialCardState with deviceValue := "tv", actionValue := "power" }).1).1.listenDisabled = false
      ∧ (clearClick (listenClick { initialCardState with deviceValue := "tv", actionValue := "power" }).1).1.listenText
          = "IR-Code speichern"
      ∧ (clearClick (listenClick { initialCardState with deviceValue := "tv", actionValue := "power" }).1).2 = []) :=
  ⟨by decide,
    clear_while_listening_reenables
      (listenClick { initialCardState with deviceValue := "tv", actionValue := "power" }).1
      (by decide)⟩
